import Mathlib

/-!
Verification of the deterministic text-metrics and prompt-assembly core of the
backlink-article generation pipeline.

The program text is embedded shallowly:

* Python strings are embedded as `List Char`.
* `str.split()` (split on runs of whitespace, discarding empty tokens) is
  `pySplitWS`; `str.strip()` is `pyStrip`; `re.split of one-or-more
  sentence-ending punctuation characters` is `reSplitPunct`; `str.lower()` is
  `pyLower` (ASCII case folding); the substring test `a in b` is
  `List.isInfixOf`-style containment `containsList`.
* `round(x, 2)` (round half to even) is modelled over exact rationals by
  `round2`.
* Code that can raise is embedded with `Except`: the outcome of the external
  LLM gateway call is passed in as an `Except` value, and the surrounding
  workflow code is a function of that outcome.
-/

namespace BlogGen

/-- ASCII whitespace recognised by Python `str.split()` / `str.strip()`. -/
def isSpacePy (c : Char) : Bool :=
  c = ' ' || c = '\t' || c = '\n' || c = '\r' || c = '\x0b' || c = '\x0c'

/-- The sentence-ending punctuation characters of the regex class in
`_calculate_metrics` (`.`, `!`, `?`). -/
def isPunctChar (c : Char) : Bool :=
  c = '.' || c = '!' || c = '?'

/-- `str.lower()` (ASCII case folding). -/
def pyLower (l : List Char) : List Char := l.map Char.toLower

/-- Accumulator loop for `pySplitWS`: `acc` holds the reversed current token. -/
def wsAux : List Char → List Char → List (List Char)
  | [], acc => if acc.isEmpty then [] else [acc.reverse]
  | c :: rest, acc =>
    if isSpacePy c then
      if acc.isEmpty then wsAux rest [] else acc.reverse :: wsAux rest []
    else
      wsAux rest (c :: acc)

/-- Python `str.split()` with no argument: the maximal runs of non-whitespace
characters, in order; no empty tokens. -/
def pySplitWS (l : List Char) : List (List Char) := wsAux l []

/-- Python `str.strip()`: remove leading and trailing whitespace. -/
def pyStrip (l : List Char) : List Char :=
  ((l.dropWhile isSpacePy).reverse.dropWhile isSpacePy).reverse

/-- Python `re.split` on one-or-more sentence punctuation characters: the
segments of the string lying between maximal runs of `.`, `!`, `?` (with an
empty segment at an end of the string that touches such a run). -/
def reSplitPunct : List Char → List (List Char)
  | [] => [[]]
  | c :: rest =>
    if isPunctChar c then
      match rest with
      | [] => [[], []]
      | d :: _ =>
        if isPunctChar d then reSplitPunct rest
        else [] :: reSplitPunct rest
    else
      match reSplitPunct rest with
      | [] => [[c]]
      | h :: t => (c :: h) :: t

/-- Substring containment, Python `needle in hay` on strings (contiguous,
case-sensitive). -/
def containsList (needle hay : List Char) : Bool :=
  match hay with
  | [] => needle.isEmpty
  | _ :: t => needle.isPrefixOf hay || containsList needle t

/-- Python `round(x, 2)` over exact rationals: round half to even at two
decimal places.  Computed on the numerator and denominator so that it
evaluates by kernel reduction: with `n = 100 * num`, `d = den`,
`f = ⌊n / d⌋` (floor division), the fractional part `n/d - f` is compared
with one half by comparing `2 * (n - f * d)` with `d`. -/
def round2 (q : ℚ) : ℚ :=
  let n : ℤ := q.num * 100
  let d : ℤ := (q.den : ℤ)
  let f : ℤ := Int.fdiv n d
  let twice : ℤ := 2 * (n - f * d)
  let r : ℤ :=
    if twice < d then f
    else if d < twice then f + 1
    else if f % 2 = 0 then f else f + 1
  mkRat r 100

/-- The record returned by `BacklinkArticleWorkflow._calculate_metrics`. -/
structure Metrics where
  word_count : Nat
  sentence_count : Nat
  avg_words_per_sentence : ℚ
  backlink_status : List Char
deriving DecidableEq, Repr

/-- The list-comprehension of `_calculate_metrics`:
`[s.strip() for s in sentences if s.strip() and len(s.strip()) > 10]`. -/
def keptSentences (article : List Char) : List (List Char) :=
  (reSplitPunct article).filterMap fun s =>
    let t := pyStrip s
    if t ≠ [] ∧ 10 < t.length then some t else none

/-- `BacklinkArticleWorkflow._calculate_metrics` (src/agents.py).  Note that
the `primary_keyword` argument is accepted, as in the source, and (as in the
source) never used. -/
def calculate_metrics (article primary_keyword original_url : List Char) : Metrics :=
  let words := pySplitWS article
  let word_count := words.length
  let sentences := keptSentences article
  let sentence_count := sentences.length
  let sentence_word_counts := sentences.map fun s => (pySplitWS s).length
  let avg : ℚ :=
    if sentence_word_counts ≠ [] then
      mkRat (sentence_word_counts.sum : ℤ) sentence_word_counts.length
    else 0
  -- `mkRat s n` is the exact rational value of the true division `s / n`
  -- (see `avg_mkRat_eq_div` below).
  let backlink_status : List Char :=
    if containsList original_url article then "Present".data else "Not Found".data
  { word_count := word_count
    sentence_count := sentence_count
    avg_words_per_sentence := round2 avg
    backlink_status := backlink_status }

/-- One competitor item of `input_data['competitor_articles']`. -/
structure Competitor where
  url : List Char
  content : List Char
deriving DecidableEq, Repr

/-- The competitor section appended for one competitor with truthy content in
`BacklinkArticleWorkflow.run` (src/agents.py): header, URL line, and the
content truncated to its first 3000 characters. -/
def competitorSection (i : Nat) (comp : Competitor) : List Char :=
  "\n\n=== COMPETITOR ARTICLE ".data ++ (toString i).data ++ " ===\n".data ++
    "URL: ".data ++ comp.url ++ "\n".data ++
    "CONTENT:\n".data ++ comp.content.take 3000 ++ "\n".data

/-- The accumulation loop building `competitor_content` in
`BacklinkArticleWorkflow.run`: `for i, comp in enumerate(..., 1)`, appending a
section only when `comp['content']` is truthy (non-empty). -/
def buildCompAux (i : Nat) (comps : List Competitor) (acc : List Char) : List Char :=
  match comps with
  | [] => acc
  | comp :: rest =>
    if comp.content ≠ [] then
      buildCompAux (i + 1) rest (acc ++ competitorSection i comp)
    else
      buildCompAux (i + 1) rest acc

/-- The full `competitor_content` string embedded in the synthesis prompt. -/
def buildCompetitorContent (comps : List Competitor) : List Char :=
  buildCompAux 1 comps []

/-- The fields of `input_data` consumed by `BacklinkArticleWorkflow.run`. -/
structure InputData where
  primary_keyword : List Char
  secondary_keywords : List (List Char)
  original_article_url : List Char
  original_article_content : List Char
  competitor_articles : List Competitor
  target_word_count : Nat
  labellerr_link : List Char
  labellerr_mention_count : Nat

/-- The dictionary returned by `BacklinkArticleWorkflow.run` on success. -/
structure RunOutput where
  final_article : List Char
  word_count : Nat
  sentence_count : Nat
  avg_words_per_sentence : ℚ
  backlink_status : List Char
  validation_summary : List Char

/-- Render a non-negative rational with one decimal digit (the `:.1f`
interpolation of the validation summary; decimal formatting of the host
language is abstracted to half-even rounding at one decimal). -/
def formatQ1 (q : ℚ) : List Char :=
  let n : ℤ := q.num * 10
  let d : ℤ := (q.den : ℤ)
  let f : ℤ := Int.fdiv n d
  let twice : ℤ := 2 * (n - f * d)
  let t : ℤ :=
    if twice < d then f
    else if d < twice then f + 1
    else if f % 2 = 0 then f else f + 1
  (toString (Int.fdiv t 10)).data ++ ".".data ++ (toString (t % 10)).data

/-- The `validation_summary` f-string of `BacklinkArticleWorkflow.run`,
line by line, with the interpolated numbers. -/
def validationSummary (input : InputData) (m : Metrics) : List Char :=
  "\n=== VALIDATION SUMMARY ===\n\n".data ++
  "OK Content Generation: Complete\n".data ++
  "   - Mixed original + competitor content\n".data ++
  "   - Generated comprehensive article\n\n".data ++
  "OK Title Validation: Checked\n".data ++
  "   - Primary keyword presence verified\n\n".data ++
  "OK Backlink Validation: Checked\n".data ++
  "   - Original article link embedded\n".data ++
  "   - Anchor text optimized\n\n".data ++
  "OK Word Count Validation: Checked\n".data ++
  "   - Target: ".data ++ (toString input.target_word_count).data ++ "+ words\n".data ++
  "   - Actual: ".data ++ (toString m.word_count).data ++ " words\n\n".data ++
  "OK Readability Validation: Checked\n".data ++
  "   - Sentences optimized for readability\n".data ++
  "   - Target: Max 13-14 words per sentence\n\n".data ++
  "OK Brand Mention Validation: Checked\n".data ++
  "   - Labellerr AI mentions integrated naturally\n".data ++
  "   - Mix of linked and plain text\n\n".data ++
  "=== FINAL METRICS ===\n".data ++
  "- Word Count: ".data ++ (toString m.word_count).data ++ "\n".data ++
  "- Sentence Count: ".data ++ (toString m.sentence_count).data ++ "\n".data ++
  "- Avg Words/Sentence: ".data ++ formatQ1 m.avg_words_per_sentence ++ "\n".data ++
  "- Backlink Status: ".data ++ m.backlink_status ++ "\n".data

/-- The tail of `BacklinkArticleWorkflow.run` (src/agents.py) after the crew
of LLM tasks has been set up: the entire sequence of LLM gateway calls is
`crew.kickoff()`, whose outcome — the final article text, or the exception it
raised — is the `kickoff` argument.  On an exception the source re-raises
(after reporting progress), so the run produces an error and none of the
result fields; on success it computes the metrics, renders the validation
summary and returns the result dictionary. -/
def workflowRun (input : InputData) (kickoff : Except (List Char) (List Char)) :
    Except (List Char) RunOutput :=
  match kickoff with
  | Except.error e => Except.error ("Error during workflow execution: ".data ++ e)
  | Except.ok result =>
    let final_article := result
    let m := calculate_metrics final_article input.primary_keyword input.original_article_url
    Except.ok
      { final_article := final_article
        word_count := m.word_count
        sentence_count := m.sentence_count
        avg_words_per_sentence := m.avg_words_per_sentence
        backlink_status := m.backlink_status
        validation_summary := validationSummary input m }

/-- `LLMClient.__init__` (src/llm_client.py) stores `provider.lower()`. -/
def clientProvider (provider : List Char) : List Char := pyLower provider

/-- The `try`/`except` wrapper of `LLMClient.generate`: a successful backend
call returns its text, an exception from the backend is re-raised as
`LLM generation failed: ...`. -/
def wrapGen : Except (List Char) (List Char) → Except (List Char) (Option (List Char))
  | Except.ok t => Except.ok (some t)
  | Except.error e => Except.error ("LLM generation failed: ".data ++ e)

/-- `LLMClient.generate` (src/llm_client.py): dispatch on substrings of the
stored (lowercased) provider name; the backend provider call is embedded as
the `backend` outcome.  When no branch matches, the Python function falls off
the end of the `if`/`elif` chain and returns `None`. -/
def generate (provider : List Char) (backend : Except (List Char) (List Char)) :
    Except (List Char) (Option (List Char)) :=
  if containsList "gemini".data provider || containsList "google".data provider then
    wrapGen backend
  else if containsList "openai".data provider then
    wrapGen backend
  else if containsList "groq".data provider then
    wrapGen backend
  else
    Except.ok none

/-- Modelled from the spec: the deterministic title rule of the
ValidationPolicy ("keyword (case-insensitive) must appear within the first
200 characters of text").  The deterministic validation-policy workflow
variant is not among the included sources — src/agents.py delegates title
validation to an LLM prompt and src/llm_client.py has no caller there — so
this check is taken from the spec's words: repair is needed exactly when the
lowercased keyword is not a substring of the lowercased first 200 characters
of the text. -/
def titleNeedsRepair (primaryKeyword text : List Char) : Bool :=
  !(containsList (pyLower primaryKeyword) (pyLower (text.take 200)))

/-!
Claim-side definitions: independent formulations of the quantities the claims
talk about, to be compared with the code-side definitions above.
-/

/-- Claim-side word count: the number of whitespace-delimited tokens of a
string, counted as the number of maximal non-whitespace runs.  `inWord` says
whether the previous character belonged to a token. -/
def tokenRuns : Bool → List Char → Nat
  | _, [] => 0
  | inWord, c :: rest =>
    if isSpacePy c then tokenRuns false rest
    else (if inWord then 0 else 1) + tokenRuns true rest

/-- Claim-side sentence splitting: cut the string at every single sentence
punctuation character (`.`, `!`, `?`). -/
def splitAtPunct (l : List Char) : List (List Char) :=
  match l with
  | [] => [[]]
  | c :: rest =>
    if isPunctChar c then
      [] :: splitAtPunct rest
    else
      match splitAtPunct rest with
      | [] => [[c]]
      | h :: t => (c :: h) :: t

/-- Claim-side kept sentences: split at punctuation, trim each candidate, and
drop every candidate whose trimmed length is at most 10 characters. -/
def claimKept (article : List Char) : List (List Char) :=
  ((splitAtPunct article).map pyStrip).filter fun t => decide (10 < t.length)

/-- Claim-side enumeration of the competitor list (Python
`enumerate(comps, i)`). -/
def indexedFrom (i : Nat) : List Competitor → List (Nat × Competitor)
  | [] => []
  | comp :: rest => (i, comp) :: indexedFrom (i + 1) rest

/-- The sections of the synthesis prompt as the claims describe them: one per
competitor with non-empty content, in order. -/
def claimSections (comps : List Competitor) : List (List Char) :=
  ((indexedFrom 1 comps).filter fun p => decide (p.2.content ≠ [])).map
    fun p => competitorSection p.1 p.2

/-- A competitor with its content truncated to the first 3000 characters. -/
def truncateComp (comp : Competitor) : Competitor :=
  { comp with content := comp.content.take 3000 }

/-!
Helper lemmas shared by the claim theorems.
-/

theorem containsList_iff_substr (needle hay : List Char) :
    containsList needle hay = true ↔ needle <:+: hay := by
  induction hay with
  | nil =>
    simp [containsList, List.isEmpty_iff, List.infix_nil]
  | cons c t ih =>
    simp only [containsList, Bool.or_eq_true, ih, List.isPrefixOf_iff_prefix]
    exact List.infix_cons_iff.symm

theorem wsAux_length (l : List Char) :
    ∀ acc : List Char,
      (wsAux l acc).length =
        if acc.isEmpty then tokenRuns false l else 1 + tokenRuns true l := by
  induction l with
  | nil =>
    intro acc
    cases acc <;> simp [wsAux, tokenRuns]
  | cons c rest ih =>
    intro acc
    by_cases hc : isSpacePy c = true
    · cases acc with
      | nil => simp [wsAux, hc, tokenRuns, ih]
      | cons a as => simp [wsAux, hc, tokenRuns, ih, Nat.add_comm]
    · cases acc with
      | nil =>
        simp [wsAux, hc, tokenRuns, ih, List.isEmpty]
      | cons a as =>
        simp [wsAux, hc, tokenRuns, ih, List.isEmpty]

theorem pySplitWS_length (l : List Char) :
    (pySplitWS l).length = tokenRuns false l := by
  simp [pySplitWS, wsAux_length]

theorem pyStrip_nil : pyStrip [] = [] := rfl

theorem round2_zero : round2 0 = 0 := by decide

theorem avg_mkRat_eq_div (s n : ℕ) : mkRat (s : ℤ) n = (s : ℚ) / (n : ℚ) := by
  rw [Rat.mkRat_eq_divInt, Rat.divInt_eq_div]
  push_cast
  rfl

theorem reSplitPunct_ne_nil (l : List Char) : reSplitPunct l ≠ [] := by
  induction l with
  | nil => simp [reSplitPunct]
  | cons c rest ih =>
    by_cases hc : isPunctChar c = true
    · cases rest with
      | nil => simp [reSplitPunct, hc]
      | cons d rest2 =>
        by_cases hd : isPunctChar d = true
        · simpa [reSplitPunct, hc, hd] using ih
        · simp [reSplitPunct, hc, hd]
    · cases h : reSplitPunct rest with
      | nil => exact absurd h ih
      | cons h t => simp [reSplitPunct, hc, h]

theorem splitAtPunct_ne_nil (l : List Char) : splitAtPunct l ≠ [] := by
  induction l with
  | nil => simp [splitAtPunct]
  | cons c rest ih =>
    by_cases hc : isPunctChar c = true
    · simp [splitAtPunct, hc]
    · cases h : splitAtPunct rest with
      | nil => exact absurd h ih
      | cons h t => simp [splitAtPunct, hc, h]

theorem head_reSplit_eq_splitAt (l : List Char) :
    (reSplitPunct l).head? = (splitAtPunct l).head? := by
  induction l with
  | nil => rfl
  | cons c rest ih =>
    by_cases hc : isPunctChar c = true
    · cases rest with
      | nil => simp [reSplitPunct, splitAtPunct, hc]
      | cons d rest2 =>
        by_cases hd : isPunctChar d = true
        · rw [show reSplitPunct (c :: d :: rest2) = reSplitPunct (d :: rest2) by
            simp [reSplitPunct, hc, hd]]
          rw [ih]
          simp [splitAtPunct, hc, hd]
        · simp [reSplitPunct, splitAtPunct, hc, hd]
    · cases hr : reSplitPunct rest with
      | nil => exact absurd hr (reSplitPunct_ne_nil rest)
      | cons h t =>
        cases hs : splitAtPunct rest with
        | nil => exact absurd hs (splitAtPunct_ne_nil rest)
        | cons h2 t2 =>
          have hhead : h = h2 := by
            have := ih
            rw [hr, hs] at this
            simpa using this
          simp [reSplitPunct, splitAtPunct, hc, hr, hs, hhead]

/-- Strip every candidate and keep those with trimmed length over 10. -/
def strippedKept (xs : List (List Char)) : List (List Char) :=
  (xs.map pyStrip).filter fun t => decide (10 < t.length)

theorem strippedKept_cons (x : List Char) (xs : List (List Char)) :
    strippedKept (x :: xs) =
      if 10 < (pyStrip x).length then pyStrip x :: strippedKept xs
      else strippedKept xs := by
  simp [strippedKept, List.filter_cons]

theorem strippedKept_reSplit_eq (l : List Char) :
    strippedKept (reSplitPunct l) = strippedKept (splitAtPunct l) := by
  induction l with
  | nil => rfl
  | cons c rest ih =>
    by_cases hc : isPunctChar c = true
    · cases rest with
      | nil => simp [reSplitPunct, splitAtPunct, hc]
      | cons d rest2 =>
        by_cases hd : isPunctChar d = true
        · rw [show reSplitPunct (c :: d :: rest2) = reSplitPunct (d :: rest2) by
            simp [reSplitPunct, hc, hd]]
          rw [ih]
          rw [show splitAtPunct (c :: d :: rest2) = [] :: splitAtPunct (d :: rest2) by
            simp [splitAtPunct, hc]]
          rw [strippedKept_cons]
          simp [pyStrip]
        · rw [show reSplitPunct (c :: d :: rest2) = [] :: reSplitPunct (d :: rest2) by
            simp [reSplitPunct, hc, hd]]
          rw [show splitAtPunct (c :: d :: rest2) = [] :: splitAtPunct (d :: rest2) by
            simp [splitAtPunct, hc]]
          rw [strippedKept_cons, strippedKept_cons]
          simp only [pyStrip]
          rw [ih]
    · cases hr : reSplitPunct rest with
      | nil => exact absurd hr (reSplitPunct_ne_nil rest)
      | cons h t =>
        cases hs : splitAtPunct rest with
        | nil => exact absurd hs (splitAtPunct_ne_nil rest)
        | cons h2 t2 =>
          have hhead : h = h2 := by
            have hh := head_reSplit_eq_splitAt rest
            rw [hr, hs] at hh
            simpa using hh
          subst hhead
          have htails : strippedKept t = strippedKept t2 := by
            have hk := ih
            rw [hr, hs] at hk
            rw [strippedKept_cons, strippedKept_cons] at hk
            by_cases hp : 10 < (pyStrip h).length
            · rw [if_pos hp, if_pos hp] at hk
              exact List.tail_eq_of_cons_eq hk
            · rwa [if_neg hp, if_neg hp] at hk
          rw [show reSplitPunct (c :: rest) = (c :: h) :: t by
            simp [reSplitPunct, hc, hr]]
          rw [show splitAtPunct (c :: rest) = (c :: h) :: t2 by
            simp [splitAtPunct, hc, hs]]
          rw [strippedKept_cons, strippedKept_cons, htails]

theorem keptSentences_eq_strippedKept (article : List Char) :
    keptSentences article = strippedKept (reSplitPunct article) := by
  unfold keptSentences
  induction reSplitPunct article with
  | nil => rfl
  | cons s xs ih =>
    rw [List.filterMap_cons, strippedKept_cons]
    by_cases hp : 10 < (pyStrip s).length
    · have hne : pyStrip s ≠ [] := by
        intro h
        rw [h] at hp
        simp at hp
      simp only [if_pos (And.intro hne hp), if_pos hp, ih]
    · have : ¬(pyStrip s ≠ [] ∧ 10 < (pyStrip s).length) := fun h => hp h.2
      simp only [if_neg this, if_neg hp, ih]

theorem keptSentences_eq_claimKept (article : List Char) :
    keptSentences article = claimKept article := by
  rw [keptSentences_eq_strippedKept, strippedKept_reSplit_eq]
  rfl

theorem buildCompAux_eq_flatten (comps : List Competitor) :
    ∀ (i : Nat) (acc : List Char),
      buildCompAux i comps acc =
        acc ++ (((indexedFrom i comps).filter fun p => decide (p.2.content ≠ [])).map
          fun p => competitorSection p.1 p.2).flatten := by
  induction comps with
  | nil => intro i acc; simp [buildCompAux, indexedFrom]
  | cons comp rest ih =>
    intro i acc
    by_cases h : comp.content ≠ []
    · rw [show buildCompAux i (comp :: rest) acc =
          buildCompAux (i + 1) rest (acc ++ competitorSection i comp) by
        simp [buildCompAux, h]]
      rw [ih]
      simp [indexedFrom, List.filter_cons, h]
    · rw [show buildCompAux i (comp :: rest) acc = buildCompAux (i + 1) rest acc by
        simp [buildCompAux, h]]
      rw [ih]
      simp [indexedFrom, List.filter_cons, h]

theorem competitorSection_truncate (i : Nat) (comp : Competitor) :
    competitorSection i (truncateComp comp) = competitorSection i comp := by
  simp [competitorSection, truncateComp, List.take_take]

theorem content_take_ne_nil (comp : Competitor) :
    (truncateComp comp).content ≠ [] ↔ comp.content ≠ [] := by
  simp [truncateComp, List.take_eq_nil_iff]

theorem buildCompAux_truncate (comps : List Competitor) :
    ∀ (i : Nat) (acc : List Char),
      buildCompAux i (comps.map truncateComp) acc = buildCompAux i comps acc := by
  induction comps with
  | nil => intro i acc; rfl
  | cons comp rest ih =>
    intro i acc
    by_cases h : comp.content ≠ []
    · rw [show buildCompAux i ((comp :: rest).map truncateComp) acc =
          buildCompAux (i + 1) (rest.map truncateComp)
            (acc ++ competitorSection i (truncateComp comp)) by
        simp [buildCompAux, (content_take_ne_nil comp).2 h]]
      rw [competitorSection_truncate, ih]
      simp [buildCompAux, h]
    · rw [show buildCompAux i ((comp :: rest).map truncateComp) acc =
          buildCompAux (i + 1) (rest.map truncateComp) acc by
        have h2 : ¬((truncateComp comp).content ≠ []) := fun hne =>
          h ((content_take_ne_nil comp).1 hne)
        simp [buildCompAux, h2]]
      rw [ih]
      simp [buildCompAux, h]

/-!
Claim theorems.
-/

/-- C1 (counterexample): the claim says the computed Metrics include a
keyword occurrence count and a keyword density derived from the primary
keyword.  They do not: `_calculate_metrics` ignores its keyword argument, so
the metrics of `"hello hello hello"` are identical for the keywords
`"hello"` (claimed occurrence count 3, density 100) and `"zzz"` (claimed
occurrence count 0, density 0), and the full record consists of exactly the
four fields word count, sentence count, average words per sentence and
backlink status. -/
theorem keyword_metrics_counterexample :
    calculate_metrics "hello hello hello".data "hello".data "u".data =
      calculate_metrics "hello hello hello".data "zzz".data "u".data ∧
    calculate_metrics "hello hello hello".data "hello".data "u".data =
      { word_count := 3, sentence_count := 1, avg_words_per_sentence := 3,
        backlink_status := "Not Found".data } :=
  ⟨rfl, by decide⟩

/-- C1 (amended): the computed Metrics contain no keyword occurrence count
and no keyword density: `_calculate_metrics` never reads its primary-keyword
argument, so the metrics are the same for any two keywords, and consist only
of word count, sentence count, average words per sentence and backlink
status. -/
theorem keyword_metrics_keyword_independent (article k1 k2 url : List Char) :
    calculate_metrics article k1 url = calculate_metrics article k2 url := rfl

/-- C2: when the LLM gateway call fails (the crew kickoff raises), the run
produces an error carrying no result: no final article, no metrics and no
validation summary are returned, and in particular no `RunOutput` exists —
earlier stage text is discarded.  Likewise `LLMClient.generate` never turns
a failed backend call into text: it either propagates the failure or (for an
unknown provider, where no backend is called) returns no text. -/
theorem gateway_failure_aborts_run :
    (∀ (input : InputData) (e : List Char),
      workflowRun input (Except.error e) =
        Except.error ("Error during workflow execution: ".data ++ e)) ∧
    (∀ (input : InputData) (e : List Char) (out : RunOutput),
      workflowRun input (Except.error e) ≠ Except.ok out) ∧
    (∀ (provider e : List Char),
      generate provider (Except.error e) = Except.ok none ∨
      generate provider (Except.error e) =
        Except.error ("LLM generation failed: ".data ++ e)) := by
  refine ⟨fun input e => rfl, ?_, ?_⟩
  · intro input e out h
    simp [workflowRun] at h
  · intro provider e
    unfold generate wrapGen
    split
    · right; rfl
    · split
      · right; rfl
      · split
        · right; rfl
        · left; rfl

/-- C3: the title rule is a deterministic check — it requires a repair
exactly when the (case-insensitively compared) primary keyword is not a
substring of the first 200 characters of the text; in particular, on the
spec scenario text whose title region contains `"pose estimation"`, no
repair is needed.  The rule is modelled from the spec (see
`titleNeedsRepair`). -/
theorem title_rule_deterministic (kw text : List Char) :
    (titleNeedsRepair kw text = false ↔ pyLower kw <:+: pyLower (text.take 200)) ∧
    titleNeedsRepair "pose estimation".data
      "TITLE: Guide to Pose Estimation\n\nPose estimation is covered in depth below.".data
      = false := by
  constructor
  · unfold titleNeedsRepair
    rw [Bool.not_eq_false']
    exact containsList_iff_substr (pyLower kw) (pyLower (text.take 200))
  · decide

/-- C4: the sentence count is the number of candidates obtained by splitting
on sentence punctuation, trimming, and dropping those of trimmed length at
most 10; the kept-sentence list of the code equals the claim-side
description, and both the count and the average-words-per-sentence value are
computed from that kept list only, so dropped fragments contribute to
neither. -/
theorem sentence_count_drops_short_fragments (article kw url : List Char) :
    (calculate_metrics article kw url).sentence_count = (claimKept article).length ∧
    keptSentences article = claimKept article ∧
    (calculate_metrics article kw url).avg_words_per_sentence =
      (if claimKept article = [] then 0
       else round2 (mkRat (((claimKept article).map fun s => (pySplitWS s).length).sum : ℤ)
         (claimKept article).length)) := by
  refine ⟨?_, keptSentences_eq_claimKept article, ?_⟩
  · simp [calculate_metrics, keptSentences_eq_claimKept]
  · simp only [calculate_metrics, keptSentences_eq_claimKept]
    by_cases h : claimKept article = []
    · simp [h, round2_zero]
    · have hm : (claimKept article).map (fun s => (pySplitWS s).length) ≠ [] := by
        simpa using h
      simp [h, hm]

/-- C5 (counterexample): the parenthetical part of the claim — that the
average words per sentence equals the whole-text word count divided by the
sentence count — is false: for the text `"aaaaaaaaaaaa bbb. cc."` the
code computes average 2 (two words in the single kept sentence), while
word count / sentence count is 3 / 1 = 3. -/
theorem avg_words_counterexample :
    (calculate_metrics "aaaaaaaaaaaa bbb. cc.".data "k".data "u".data).avg_words_per_sentence ≠
      ((calculate_metrics "aaaaaaaaaaaa bbb. cc.".data "k".data "u".data).word_count : ℚ) /
        ((calculate_metrics "aaaaaaaaaaaa bbb. cc.".data "k".data "u".data).sentence_count : ℚ) := by
  have hm : calculate_metrics "aaaaaaaaaaaa bbb. cc.".data "k".data "u".data =
      { word_count := 3, sentence_count := 1, avg_words_per_sentence := 2,
        backlink_status := "Not Found".data } := by decide
  rw [hm]
  norm_num

/-- C5 (amended): the average words per sentence equals the total number of
whitespace-delimited words across the kept sentences divided by the
kept-sentence count, is 0 when no sentences are kept, and is rounded
half-to-even to 2 decimal places.  (It does not in general equal the
whole-text word count divided by the sentence count.) -/
theorem avg_words_per_sentence_spec (article kw url : List Char) :
    (calculate_metrics article kw url).avg_words_per_sentence =
      if claimKept article = [] then 0
      else round2 (((((claimKept article).map (tokenRuns false)).sum : ℕ) : ℚ) /
        ((claimKept article).length : ℚ)) := by
  have hmap : (claimKept article).map (fun s => (pySplitWS s).length) =
      (claimKept article).map (tokenRuns false) :=
    List.map_congr_left fun s _ => pySplitWS_length s
  rw [show (calculate_metrics article kw url).avg_words_per_sentence =
      round2 (if (keptSentences article).map (fun s => (pySplitWS s).length) ≠ [] then
        mkRat ((((keptSentences article).map fun s => (pySplitWS s).length).sum : ℕ) : ℤ)
          ((keptSentences article).map fun s => (pySplitWS s).length).length
      else 0) from rfl]
  rw [keptSentences_eq_claimKept, hmap]
  by_cases h : claimKept article = []
  · simp [h, round2_zero]
  · have hm : (claimKept article).map (tokenRuns false) ≠ [] := by simpa using h
    rw [if_pos hm, if_neg h, avg_mkRat_eq_div, List.length_map]

/-- C6: the computed word count is the number of whitespace-delimited tokens
of the whole text, i.e. the number of maximal non-whitespace runs. -/
theorem word_count_is_token_count (article kw url : List Char) :
    (calculate_metrics article kw url).word_count = tokenRuns false article := by
  rw [show (calculate_metrics article kw url).word_count = (pySplitWS article).length
    from rfl]
  exact pySplitWS_length article

/-- C7: backlink presence is reported as `Present` exactly when the URL is a
contiguous, case-sensitive substring of the text, and as `Not Found` exactly
when it is not. -/
theorem backlink_present_iff_substring (article kw url : List Char) :
    ((calculate_metrics article kw url).backlink_status = "Present".data ↔
      url <:+: article) ∧
    ((calculate_metrics article kw url).backlink_status = "Not Found".data ↔
      ¬ url <:+: article) := by
  have hst : (calculate_metrics article kw url).backlink_status =
      if containsList url article then "Present".data else "Not Found".data := rfl
  by_cases h : containsList url article = true
  · have hi : url <:+: article := (containsList_iff_substr url article).1 h
    rw [hst, if_pos h]
    exact ⟨by simp [hi], by simp [hi]⟩
  · have hi : ¬ url <:+: article := fun hinf =>
      h ((containsList_iff_substr url article).2 hinf)
    rw [hst, if_neg h]
    exact ⟨by simp [hi], by simp [hi]⟩

/-- C8: the synthesis prompt's competitor block is exactly the concatenation
of one section per competitor whose content string is non-empty, in order
(with 1-based numbering); competitors with empty content are omitted, and
the construction is total (no error). -/
theorem competitor_sections_iff_nonempty (comps : List Competitor) :
    buildCompetitorContent comps = (claimSections comps).flatten := by
  rw [buildCompetitorContent, buildCompAux_eq_flatten]
  rfl

/-- C9: the synthesis prompt embeds at most the first 3000 characters of
each competitor's content: the whole competitor block is unchanged when
every content is truncated to 3000 characters (so characters beyond position
3000 never influence the prompt), and each emitted section contains exactly
the 3000-character truncation as a contiguous segment. -/
theorem competitor_content_truncated :
    (∀ comps : List Competitor,
      buildCompetitorContent comps = buildCompetitorContent (comps.map truncateComp)) ∧
    (∀ (i : Nat) (comp : Competitor),
      comp.content.take 3000 <:+: competitorSection i comp) := by
  constructor
  · intro comps
    exact (buildCompAux_truncate comps 1 []).symm
  · intro i comp
    refine ⟨"\n\n=== COMPETITOR ARTICLE ".data ++ (toString i).data ++ " ===\n".data ++
      "URL: ".data ++ comp.url ++ "\n".data ++ "CONTENT:\n".data, "\n".data, ?_⟩
    simp [competitorSection]

/-- C10: for a provider string that (after lowercasing) contains none of the
substrings `gemini`, `google`, `openai`, `groq`, `LLMClient.generate`
returns no text (`None`) without raising, regardless of what the backend
would have done. -/
theorem generate_unknown_provider (provider : List Char)
    (backend : Except (List Char) (List Char))
    (h : containsList "gemini".data (clientProvider provider) = false ∧
         containsList "google".data (clientProvider provider) = false ∧
         containsList "openai".data (clientProvider provider) = false ∧
         containsList "groq".data (clientProvider provider) = false) :
    generate (clientProvider provider) backend = Except.ok none := by
  unfold generate
  rw [h.1, h.2.1, h.2.2.1, h.2.2.2]
  rfl

/-- C10 (witness): the provider `"Anthropic"` matches none of the dispatch
substrings, and `generate` returns no text on it. -/
theorem generate_unknown_provider_witness :
    (containsList "gemini".data (clientProvider "Anthropic".data) = false ∧
     containsList "google".data (clientProvider "Anthropic".data) = false ∧
     containsList "openai".data (clientProvider "Anthropic".data) = false ∧
     containsList "groq".data (clientProvider "Anthropic".data) = false) ∧
    generate (clientProvider "Anthropic".data) (Except.ok "hi".data) = Except.ok none :=
  ⟨by decide,
    generate_unknown_provider "Anthropic".data (Except.ok "hi".data) (by decide)⟩

end BlogGen
